import Mathlib

/-!
Verification of the query-decomposition / hybrid-retrieval chatbot core.

The definitions below are shallow embeddings of the Python sources
(`chatbot.py`, `chat_memory_service.py`, `db_service.py`): pure functions
become Lean functions, mutable objects become explicit state passing, and
calls into external collaborators (the language model, the embedding
service, the Postgres/pgvector store) become function parameters modelling
those collaborators at their interface.  Machine floats from the embedding
service are modelled as rationals; the claims proved here do not depend on
float rounding.
-/

/-! ## Generic string helpers (Python `str.replace`, `str.strip`, `in`) -/

/-- One fuelled step-through of Python's `str.replace(pat, sub)` over the
character list of a string: replaces every non-overlapping occurrence of
`p` by `r`, scanning left to right.  `fuel` bounds the recursion; callers
pass the length of the scanned list, which always suffices because every
step consumes at least one character. -/
def replaceAllFuel (p r : List Char) : Nat → List Char → List Char
  | 0, s => s
  | _ + 1, [] => []
  | fuel + 1, c :: s =>
    if p.isPrefixOf (c :: s) && !p.isEmpty then
      r ++ replaceAllFuel p r fuel ((c :: s).drop p.length)
    else
      c :: replaceAllFuel p r fuel s

/-- Python `s.replace(pat, sub)` on character lists. -/
def replaceAll (p r s : List Char) : List Char :=
  replaceAllFuel p r s.length s

/-- Python `s.strip()`: drop whitespace from both ends. -/
def pyStrip (s : List Char) : List Char :=
  ((s.dropWhile Char.isWhitespace).reverse.dropWhile Char.isWhitespace).reverse

/-- Helper for `strOccurs`: does `n` occur as a contiguous block of `hay`? -/
def occursAux (n : List Char) : List Char → Bool
  | [] => n.isEmpty
  | c :: rest => n.isPrefixOf (c :: rest) || occursAux n rest

/-- Python's substring test `needle in hay`. -/
def strOccurs (needle hay : String) : Bool :=
  occursAux needle.data hay.data

/-! ## Turn memory (`chat_memory_service.py`) -/

/-- `ChatMemory.__init__`: both slots start as Python `None`. -/
structure ChatMemory where
  user_message : Option String
  bot_message : Option String
deriving DecidableEq

def ChatMemory.init : ChatMemory := ⟨none, none⟩

/-- Python truthiness of an optional string: `None` and `""` are falsy. -/
def truthyStr : Option String → Bool
  | none => false
  | some s => !s.isEmpty

/-- `ChatMemory.add_user_message`: unconditional overwrite of the slot. -/
def ChatMemory.add_user_message (m : ChatMemory) (message : String) : ChatMemory :=
  { m with user_message := some message }

/-- `ChatMemory.add_bot_message`: unconditional overwrite of the slot. -/
def ChatMemory.add_bot_message (m : ChatMemory) (message : String) : ChatMemory :=
  { m with bot_message := some message }

/-- `ChatMemory.to_string`: empty string when both slots are falsy, else a
header line followed by a `User:` line for a truthy user slot and a
`Bot:` line for a truthy bot slot, joined with newlines. -/
def ChatMemory.to_string (m : ChatMemory) : String :=
  if !truthyStr m.user_message && !truthyStr m.bot_message then ""
  else
    String.intercalate "\n"
      (["Chat Memory (2 previous message):"]
        ++ (if truthyStr m.user_message then ["User: " ++ m.user_message.getD ""] else [])
        ++ (if truthyStr m.bot_message then ["Bot: " ++ m.bot_message.getD ""] else []))

/-- `ChatMemoryService.__init__`: the `memory_store` dict, modelled as a
partial map from user ids to memories (`none` = key absent). -/
structure ChatMemoryService where
  memory_store : String → Option ChatMemory

def ChatMemoryService.init : ChatMemoryService := ⟨fun _ => none⟩

/-- `ChatMemoryService.get_memory_for_user`: lazily creates a fresh
`ChatMemory` for an unseen user id.  (The Python version also inserts the
fresh object into the dict; that insertion is unobservable through the
public interface and is reflected in the `add_*` updates below.) -/
def ChatMemoryService.get_memory_for_user (s : ChatMemoryService) (user_id : String) : ChatMemory :=
  (s.memory_store user_id).getD ChatMemory.init

/-- `ChatMemoryService.add_user_message`. -/
def ChatMemoryService.add_user_message (s : ChatMemoryService) (user_id message : String) :
    ChatMemoryService :=
  ⟨fun v => if v = user_id then some ((s.get_memory_for_user user_id).add_user_message message)
            else s.memory_store v⟩

/-- `ChatMemoryService.add_bot_message`. -/
def ChatMemoryService.add_bot_message (s : ChatMemoryService) (user_id message : String) :
    ChatMemoryService :=
  ⟨fun v => if v = user_id then some ((s.get_memory_for_user user_id).add_bot_message message)
            else s.memory_store v⟩

/-- The spec's `record(u, user_message, bot_message)`: the delivery
adapters call `add_user_message` then `add_bot_message` on completion. -/
def ChatMemoryService.record (s : ChatMemoryService) (user_id user_msg bot_msg : String) :
    ChatMemoryService :=
  (s.add_user_message user_id user_msg).add_bot_message user_id bot_msg

/-- The spec's `render(u)`: the adapters pass
`get_memory_for_user(u).to_string()` to the decomposer. -/
def ChatMemoryService.render (s : ChatMemoryService) (user_id : String) : String :=
  (s.get_memory_for_user user_id).to_string

/-! ## Catalog rows and vector retrieval (`chatbot.py`, retrieval functions)

The Postgres/pgvector store is an external collaborator; it is modelled at
its interface: a table is a list of rows, a row's `embedding` column is
`Option (List ℚ)` (`none` = SQL NULL), and the pgvector cosine-distance
operator is a parameter `dist`.  The `SELECT ... WHERE embedding IS NOT
NULL ORDER BY embedding <=> qv ASC LIMIT k` issued by
`retrieve_similar_products` / `retrieve_similar_shop_info` is modelled as
filter, sort by ascending distance, truncate to `k`; the selected
`1 - (embedding <=> qv)` column becomes the `similarity` field. -/

/-- A row of the `products` table (nullable columns are `Option`). -/
structure ProductRow where
  id : Nat
  name : Option String
  name_mm : Option String
  description : Option String
  description_mm : Option String
  category : Option String
  brand : Option String
  price : Option ℚ
  stock_quantity : Option Int
  embedding : Option (List ℚ)
deriving DecidableEq

/-- A row of the result set of the vector query in
`retrieve_similar_products` (the dict built from the `DictCursor` row). -/
structure RetrievedProduct where
  id : Nat
  name : Option String
  name_mm : Option String
  description : Option String
  description_mm : Option String
  category : Option String
  brand : Option String
  price : Option ℚ
  stock_quantity : Option Int
  similarity : ℚ
deriving DecidableEq

/-- The output row `retrieve_similar_products` builds from a table row,
given the distance of the row's embedding to the query vector. -/
def retrieved_product_of (dist : List ℚ → List ℚ → ℚ) (qv : List ℚ) (r : ProductRow) :
    RetrievedProduct :=
  { id := r.id, name := r.name, name_mm := r.name_mm, description := r.description,
    description_mm := r.description_mm, category := r.category, brand := r.brand,
    price := r.price, stock_quantity := r.stock_quantity,
    similarity := 1 - dist (r.embedding.getD []) qv }

/-- The `WHERE embedding IS NOT NULL` restriction. -/
def embedded_products (tbl : List ProductRow) : List ProductRow :=
  tbl.filter (fun r => r.embedding.isSome)

/-- The vector query of `retrieve_similar_products`: restrict to embedded
rows, order by ascending distance to the query vector, cap at `top_k`,
and select the columns together with `1 - distance` as `similarity`. -/
def products_vector_query (dist : List ℚ → List ℚ → ℚ) (qv : List ℚ)
    (tbl : List ProductRow) (top_k : Nat) : List RetrievedProduct :=
  ((((embedded_products tbl).mergeSort
      (fun a b => decide (dist (a.embedding.getD []) qv ≤ dist (b.embedding.getD []) qv))).take
      top_k).map (retrieved_product_of dist qv))

/-- `retrieve_similar_products(query, top_k=5)`: embeds the query via the
embedding service (parameter `embed`) and issues the vector query with the
returned vector used as-is. -/
def retrieve_similar_products (embed : String → List ℚ) (dist : List ℚ → List ℚ → ℚ)
    (tbl : List ProductRow) (query : String) (top_k : Nat := 5) : List RetrievedProduct :=
  let query_vec := embed query
  products_vector_query dist query_vec tbl top_k

/-- A row of the `document_chunks` table.  `chunk_text` and
`contextualized_text` are `TEXT NOT NULL` columns, hence plain strings. -/
structure DocumentChunkRow where
  id : Nat
  chunk_index : Nat
  chunk_text : String
  contextualized_text : String
  chunk_tokens : Nat
  contextualized_tokens : Nat
  embedding : Option (List ℚ)
deriving DecidableEq

/-- A row of the result set of the vector query in
`retrieve_similar_shop_info`. -/
structure RetrievedChunk where
  id : Nat
  chunk_index : Nat
  chunk_text : String
  contextualized_text : String
  similarity : ℚ
deriving DecidableEq

/-- The output row `retrieve_similar_shop_info` builds from a table row. -/
def retrieved_chunk_of (dist : List ℚ → List ℚ → ℚ) (qv : List ℚ) (r : DocumentChunkRow) :
    RetrievedChunk :=
  { id := r.id, chunk_index := r.chunk_index, chunk_text := r.chunk_text,
    contextualized_text := r.contextualized_text,
    similarity := 1 - dist (r.embedding.getD []) qv }

/-- The `WHERE embedding IS NOT NULL` restriction for document chunks. -/
def embedded_chunks (tbl : List DocumentChunkRow) : List DocumentChunkRow :=
  tbl.filter (fun r => r.embedding.isSome)

/-- The vector query of `retrieve_similar_shop_info`. -/
def chunks_vector_query (dist : List ℚ → List ℚ → ℚ) (qv : List ℚ)
    (tbl : List DocumentChunkRow) (top_k : Nat) : List RetrievedChunk :=
  ((((embedded_chunks tbl).mergeSort
      (fun a b => decide (dist (a.embedding.getD []) qv ≤ dist (b.embedding.getD []) qv))).take
      top_k).map (retrieved_chunk_of dist qv))

/-- `retrieve_similar_shop_info(query, top_k=5)`. -/
def retrieve_similar_shop_info (embed : String → List ℚ) (dist : List ℚ → List ℚ → ℚ)
    (tbl : List DocumentChunkRow) (query : String) (top_k : Nat := 5) : List RetrievedChunk :=
  let query_vec := embed query
  chunks_vector_query dist query_vec tbl top_k

/-! ## Context builders (`chatbot.py`, section 3) -/

/-- Python rendering of an optional string inside an f-string:
`None` prints as `"None"`. -/
def pyShowOptStr : Option String → String
  | none => "None"
  | some s => s

/-- Python rendering of an optional numeric column inside an f-string.
The exact decimal digits produced by Python for a `Decimal` are abstracted
by `toString`; no claim depends on digit formatting. -/
def pyShowOptRat : Option ℚ → String
  | none => "None"
  | some q => toString q

/-- Python rendering of an optional integer column inside an f-string. -/
def pyShowOptInt : Option Int → String
  | none => "None"
  | some n => toString n

/-- The body of the `for idx, p in enumerate(products, start=1)` loop of
`build_context_for_products`: four text lines plus a blank line per
product, with `idx` counting up from the given start. -/
def numbered_product_lines (idx : Nat) : List RetrievedProduct → List String
  | [] => []
  | p :: rest =>
    (Nat.repr idx ++ ". **" ++ pyShowOptStr p.name ++ "** (" ++ pyShowOptStr p.name_mm ++ ")")
      :: ("   - Category: " ++ pyShowOptStr p.category ++ ", Brand: " ++ pyShowOptStr p.brand)
      :: ("   - Price: $" ++ pyShowOptRat p.price ++ ", Stock: "
            ++ pyShowOptInt p.stock_quantity)
      :: ("   - Description: " ++ pyShowOptStr p.description)
      :: ""
      :: numbered_product_lines (idx + 1) rest

/-- `build_context_for_products`. -/
def build_context_for_products (products : List RetrievedProduct) : String :=
  if products.isEmpty then "No relevant products found in the database."
  else
    String.intercalate "\n"
      ("Here are the relevant products from our database:\n"
        :: numbered_product_lines 1 products)

/-- The chain `chunk.get('contextualized_text') or chunk.get('chunk_text')
or chunk.get('text') or ""` of `build_context_for_shop_info`.  Rows from
`retrieve_similar_shop_info` carry no `text` key, so that lookup yields
`None` and the chain reduces to the first non-empty of
`contextualized_text`, `chunk_text`, `""`. -/
def chunk_display_text (c : RetrievedChunk) : String :=
  if c.contextualized_text ≠ "" then c.contextualized_text
  else if c.chunk_text ≠ "" then c.chunk_text
  else ""

/-- The `for idx, chunk in enumerate(info_chunks, start=1)` loop of
`build_context_for_shop_info`: one numbered line plus a blank line per
chunk. -/
def numbered_chunk_lines (idx : Nat) : List RetrievedChunk → List String
  | [] => []
  | c :: rest =>
    (Nat.repr idx ++ ". " ++ chunk_display_text c) :: "" :: numbered_chunk_lines (idx + 1) rest

/-- The `lines` list of `build_context_for_shop_info` for a non-empty
input. -/
def shop_info_lines (info_chunks : List RetrievedChunk) : List String :=
  "Here is the relevant shop information:\n" :: numbered_chunk_lines 1 info_chunks

/-- `build_context_for_shop_info`. -/
def build_context_for_shop_info (info_chunks : List RetrievedChunk) : String :=
  if info_chunks.isEmpty then "No relevant shop information found."
  else String.intercalate "\n" (shop_info_lines info_chunks)

/-! ## Structured query execution (`chatbot.py` `execute_sql_query`,
`db_service.py` `get_connection`)

`get_connection` opens a psycopg2 connection with `autocommit = False`, so
every statement runs inside a transaction; `execute_sql_query` runs the
generated query text and never calls `commit`, and the `finally` block
closes the connection, which rolls the open transaction back.  The
Postgres engine is modelled at its interface: the query text parses into a
sequence of statements; a read leaves state alone, a write transforms the
transaction's pending view, and an explicit transaction-control `COMMIT`
statement inside the query text persists the pending view.  Table
contents are abstracted to a list of rows. -/

/-- One statement of a generated query, as seen by the store. -/
inductive SqlStmt where
  | query
  | write (f : List String → List String)
  | commitTx

/-- Connection-transaction state: the uncommitted pending view and the
durable (committed) state that survives `conn.close()`. -/
structure PgConn where
  pending : List String
  durable : List String

/-- Run the statements of one `cur.execute(sql_query)` call. -/
def runStatements : List SqlStmt → PgConn → PgConn
  | [], c => c
  | SqlStmt.query :: rest, c => runStatements rest c
  | SqlStmt.write f :: rest, c => runStatements rest { c with pending := f c.pending }
  | SqlStmt.commitTx :: rest, c =>
      runStatements rest { pending := c.pending, durable := c.pending }

/-- The durable store state after `execute_sql_query` runs a query that
parses into `stmts`: the transaction starts from the durable state
(`autocommit = False`), `execute_sql_query` itself never commits, and the
`finally: conn.close()` rolls the open transaction back, so only state
persisted by an explicit `COMMIT` inside the query text survives. -/
def execute_sql_query_state (stmts : List SqlStmt) (durable : List String) : List String :=
  (runStatements stmts { pending := durable, durable := durable }).durable

/-- The value `(cols, results)` returned by `execute_sql_query`: a result
set with column names and fetched rows when `cur.description` is set,
`(None, None)` for a statement producing no result set, and
`(None, str(e))` when execution raised.  The fetched rows are carried as
the string Python renders them to in the f-string of
`get_sql_data_context`. -/
inductive SqlExecOutcome where
  | resultSet (cols : List String) (rowsRendered : String)
  | noResultSet
  | failure (err : String)

/-- The tail of `get_sql_data_context` after the language-model call:
given the generated SQL (code fences already stripped) and the executor's
outcome, build the context block.  The Python code detects failure by
`isinstance(results, str)`, which holds exactly for the `failure`
outcome. -/
def get_sql_data_context (generated_sql : String) (outcome : SqlExecOutcome) : String :=
  match outcome with
  | SqlExecOutcome.failure e => "Database data could not be retrieved. Error: " ++ e
  | SqlExecOutcome.resultSet _cols rowsRendered =>
      "Analytical Data (from query " ++ generated_sql ++ "): " ++ rowsRendered
  | SqlExecOutcome.noResultSet => "Analytical Data (from query " ++ generated_sql ++ "): None"

/-! ## Router and decomposer (`chatbot.py` `route_and_decompose_query`)

The language model and Python's `json` library are external
collaborators.  A Python value decoded from JSON is modelled by `JValue`;
`json.loads` is a parameter `jsonLoads` returning `none` when the Python
call raises. -/

/-- A Python value produced by `json.loads` (numbers restricted to
integers, which suffices for every statement proved about the router). -/
inductive JValue where
  | null
  | bool (b : Bool)
  | num (n : Int)
  | str (s : String)
  | arr (items : List JValue)
  | obj (fields : List (String × JValue))

/-- A sub-task produced by the decomposer: `sub_query` plus `intent`. -/
structure SubTask where
  sub_query : String
  intent : String
deriving DecidableEq

/-- The code-fence stripping applied to the router's raw output:
`text.replace("```json", "").replace("```", "").strip()`. -/
def strip_json_fences (s : String) : String :=
  String.mk (pyStrip (replaceAll "```".data [] (replaceAll "```json".data [] s.data)))

/-- `route_and_decompose_query`: strips code fences from the model's raw
output and decodes it with `json.loads`; if decoding raises, the bare
`except:` returns the single fallback sub-task
`[{sub_query: user_query, intent: "semantic_shop"}]`; otherwise the
decoded value is returned as-is. -/
def route_and_decompose_query (user_query : String) (jsonLoads : String → Option JValue)
    (response_text : String) : JValue :=
  match jsonLoads (strip_json_fences response_text) with
  | some v => v
  | none =>
      JValue.arr [JValue.obj [("sub_query", JValue.str user_query),
                              ("intent", JValue.str "semantic_shop")]]

/-- The fallback value of `route_and_decompose_query` as a `JValue`. -/
def fallback_route_value (user_query : String) : JValue :=
  JValue.arr [JValue.obj [("sub_query", JValue.str user_query),
                          ("intent", JValue.str "semantic_shop")]]

/-- Reading a decoded value as a string (used to interpret sub-task
fields). -/
def jStr : JValue → Option String
  | JValue.str s => some s
  | _ => none

/-- First binding of a key in a decoded JSON object. -/
def jLookup (k : String) : List (String × JValue) → Option JValue
  | [] => none
  | (k', v) :: rest => if k' = k then some v else jLookup k rest

/-- Reading a decoded value as one sub-task object, per the claim's words
"a list of sub-task objects": an object with string fields `sub_query`
and `intent`. -/
def asSubTask : JValue → Option SubTask
  | JValue.obj fields =>
      match (jLookup "sub_query" fields).bind jStr, (jLookup "intent" fields).bind jStr with
      | some q, some i => some { sub_query := q, intent := i }
      | _, _ => none
  | _ => none

/-- Reading a decoded value as a list of sub-task objects. -/
def asSubTaskList : JValue → Option (List SubTask)
  | JValue.arr items => items.mapM asSubTask
  | _ => none

/-- A model of `json.loads` agreeing with Python on the inputs used in
the statements below: a string of decimal digits decodes to the integer
it spells; anything else raises (returns `none`). -/
def digitsJsonLoads (s : String) : Option JValue :=
  if s.data ≠ [] ∧ s.data.all (fun c => c.isDigit) then
    some (JValue.num (Int.ofNat (s.data.foldl (fun acc c => 10 * acc + (c.toNat - 48)) 0)))
  else none

/-! ## Orchestrator (`chatbot.py` `chat_with_rag_stream`)

The per-sub-task external effects are gathered in `RagEnv`: the
structured sub-pipeline (language model plus executor) behind
`sql_context`, and the two retrievals behind row oracles that are then
formatted by the real context builders. -/

/-- The external collaborators one user turn reads from. -/
structure RagEnv where
  sql_context : String → String
  product_rows : String → List RetrievedProduct
  shop_rows : String → List RetrievedChunk

/-- The body of the `for task in sub_tasks` dispatch of
`chat_with_rag_stream`: a recognized intent appends one context block;
any other intent appends nothing. -/
def context_for_task (env : RagEnv) (t : SubTask) : Option String :=
  if t.intent = "sql" then some (env.sql_context t.sub_query)
  else if t.intent = "semantic_product" then
    some (build_context_for_products (env.product_rows t.sub_query))
  else if t.intent = "semantic_shop" then
    some (build_context_for_shop_info (env.shop_rows t.sub_query))
  else none

/-- The `combined_contexts` list built by the dispatch loop. -/
def combined_contexts (env : RagEnv) (tasks : List SubTask) : List String :=
  tasks.filterMap (context_for_task env)

/-- `full_context = "\n\n".join(combined_contexts)`. -/
def full_context (env : RagEnv) (tasks : List SubTask) : String :=
  String.intercalate "\n\n" (combined_contexts env tasks)

/-! ## Embedding storage (`db_service.py`) -/

def EMBEDDING_DIM : Nat := 768

/-- The dimensionality enforcement shared by
`set_embeddings_for_products` and `set_embedding_about_shop`: pad with
zeros when shorter than `EMBEDDING_DIM`, truncate when longer. -/
def enforce_embedding_dim (vec : List ℚ) : List ℚ :=
  if vec.length < EMBEDDING_DIM then vec ++ List.replicate (EMBEDDING_DIM - vec.length) 0
  else if vec.length > EMBEDDING_DIM then vec.take EMBEDDING_DIM
  else vec

/-- The embedding a product row ends up with in the
`set_embeddings_for_products` loop, as a function of the embedding
service's output for the row's serialized text: `none` models a raised
exception, and an empty output is rejected by the
`if not isinstance(vec, list) or not vec` guard — in both cases the row
is skipped (`continue`) and nothing is stored; otherwise the
dimensionality-enforced vector is stored. -/
def stored_product_embedding (service_output : Option (List ℚ)) : Option (List ℚ) :=
  match service_output with
  | none => none
  | some v => if v.isEmpty then none else some (enforce_embedding_dim v)

/-- The embedding stored for a document chunk by
`set_embedding_about_shop`, with the same guard and enforcement. -/
def stored_chunk_embedding (service_output : Option (List ℚ)) : Option (List ℚ) :=
  match service_output with
  | none => none
  | some v => if v.isEmpty then none else some (enforce_embedding_dim v)

/-- The C9 rendering rule as the spec words it: the fragment's
contextualized text when present (non-empty), otherwise the fragment's
raw chunk text. -/
def spec_fragment_text (c : RetrievedChunk) : String :=
  if c.contextualized_text ≠ "" then c.contextualized_text else c.chunk_text

/-! ## Claim theorems for turn memory -/

/-- Claim C6: recording a user/bot pair for a user overwrites the previous
pair rather than appending.  Starting from any service state, after
`record u "hi" "hello"` followed by `record u "bye" "goodbye"`,
`render u` is exactly the block for `"bye"`/`"goodbye"`; it contains
neither `"hi"` nor `"hello"` as a substring; and a user id whose slots
were never recorded renders as the empty string. -/
theorem record_overwrites_previous_pair (s : ChatMemoryService) (u : String) :
    ((s.record u "hi" "hello").record u "bye" "goodbye").render u
        = "Chat Memory (2 previous message):\nUser: bye\nBot: goodbye"
    ∧ strOccurs "hi" (((s.record u "hi" "hello").record u "bye" "goodbye").render u) = false
    ∧ strOccurs "hello" (((s.record u "hi" "hello").record u "bye" "goodbye").render u) = false
    ∧ ChatMemoryService.init.render u = "" := by
  have hmem : ((s.record u "hi" "hello").record u "bye" "goodbye").get_memory_for_user u
      = { user_message := some "bye", bot_message := some "goodbye" } := by
    simp [ChatMemoryService.record, ChatMemoryService.add_user_message,
      ChatMemoryService.add_bot_message, ChatMemoryService.get_memory_for_user,
      ChatMemory.add_user_message, ChatMemory.add_bot_message]
  refine ⟨?_, ?_, ?_, ?_⟩
  · rw [ChatMemoryService.render, hmem]; decide
  · rw [ChatMemoryService.render, hmem]; decide
  · rw [ChatMemoryService.render, hmem]; decide
  · rfl

/-- Claim C10: a role slot holding the empty string is indistinguishable,
through `to_string`, from an unrecorded slot: replacing `some ""` by
`none` in either slot never changes `to_string`; after recording `""` for
both roles of a user the service renders the empty string; and a role
recorded as `""` contributes no line even when the other role's slot is
non-empty. -/
theorem empty_message_slot_invisible (s : ChatMemoryService) (u : String) :
    (∀ b : Option String, ChatMemory.to_string ⟨some "", b⟩ = ChatMemory.to_string ⟨none, b⟩)
    ∧ (∀ a : Option String, ChatMemory.to_string ⟨a, some ""⟩ = ChatMemory.to_string ⟨a, none⟩)
    ∧ ((s.add_user_message u "").add_bot_message u "").render u = ""
    ∧ ((s.add_user_message u "").add_bot_message u "hello").render u
        = "Chat Memory (2 previous message):\nBot: hello"
    ∧ ((s.add_user_message u "ok").add_bot_message u "").render u
        = "Chat Memory (2 previous message):\nUser: ok" := by
  have hu : ∀ m : String, ((s.add_user_message u "").add_bot_message u m).get_memory_for_user u
      = { user_message := some "", bot_message := some m } := by
    intro m
    simp [ChatMemoryService.add_user_message, ChatMemoryService.add_bot_message,
      ChatMemoryService.get_memory_for_user, ChatMemory.add_user_message,
      ChatMemory.add_bot_message]
  have hb : ((s.add_user_message u "ok").add_bot_message u "").get_memory_for_user u
      = { user_message := some "ok", bot_message := some "" } := by
    simp [ChatMemoryService.add_user_message, ChatMemoryService.add_bot_message,
      ChatMemoryService.get_memory_for_user, ChatMemory.add_user_message,
      ChatMemory.add_bot_message]
  refine ⟨?_, ?_, ?_, ?_, ?_⟩
  · intro b
    simp [ChatMemory.to_string, show truthyStr (some "") = false from rfl,
      show truthyStr none = false from rfl]
  · intro a
    simp [ChatMemory.to_string, show truthyStr (some "") = false from rfl,
      show truthyStr none = false from rfl]
  · rw [ChatMemoryService.render, hu]; decide
  · rw [ChatMemoryService.render, hu]; decide
  · rw [ChatMemoryService.render, hb]; decide

/-! ## Shared occurrence lemmas -/

theorem prefixOf_append_self : ∀ (l t : List Char), l.isPrefixOf (l ++ t) = true
  | [], _ => by simp
  | c :: l, t => by simp [List.isPrefixOf, prefixOf_append_self l t]

theorem occursAux_append (n pre t : List Char) : occursAux n (pre ++ (n ++ t)) = true := by
  induction pre with
  | nil =>
    cases n with
    | nil =>
      cases t with
      | nil => rfl
      | cons c r => simp [occursAux, List.isPrefixOf]
    | cons c m => simp [occursAux, prefixOf_append_self]
  | cons c pre ih => simp [occursAux, ih]

theorem strOccurs_append (pre n suf : String) : strOccurs n (pre ++ (n ++ suf)) = true := by
  simp only [strOccurs, String.data_append]
  exact occursAux_append n.data pre.data suf.data

theorem strOccurs_append_right (pre n : String) : strOccurs n (pre ++ n) = true := by
  have h := strOccurs_append pre n ""
  simpa using h

/-! ## Claim theorems for the context formatters and the structured
sub-pipeline -/

/-- Claim C7: each context formatter turns the empty input into its fixed,
non-empty "no relevant results" sentence. -/
theorem empty_retrieval_formats_as_sentence :
    build_context_for_products [] = "No relevant products found in the database."
    ∧ build_context_for_products [] ≠ ""
    ∧ build_context_for_shop_info [] = "No relevant shop information found."
    ∧ build_context_for_shop_info [] ≠ "" := by
  refine ⟨rfl, by decide, rfl, by decide⟩

/-- Claim C5: `get_sql_data_context` never aborts the turn.  On execution
failure it returns the "could not be retrieved" block carrying the error
text; on success it returns the block carrying the generated query and
the literal result set (the rows as Python renders them); a statement
with no result set yields the success block with Python's `None`. -/
theorem sql_context_degrades_or_reports (generated_sql e rowsRendered : String)
    (cols : List String) :
    get_sql_data_context generated_sql (SqlExecOutcome.failure e)
        = "Database data could not be retrieved. Error: " ++ e
    ∧ strOccurs "could not be retrieved"
        (get_sql_data_context generated_sql (SqlExecOutcome.failure e)) = true
    ∧ strOccurs e (get_sql_data_context generated_sql (SqlExecOutcome.failure e)) = true
    ∧ get_sql_data_context generated_sql (SqlExecOutcome.resultSet cols rowsRendered)
        = "Analytical Data (from query " ++ generated_sql ++ "): " ++ rowsRendered
    ∧ strOccurs generated_sql
        (get_sql_data_context generated_sql (SqlExecOutcome.resultSet cols rowsRendered)) = true
    ∧ strOccurs rowsRendered
        (get_sql_data_context generated_sql (SqlExecOutcome.resultSet cols rowsRendered)) = true
    ∧ get_sql_data_context generated_sql SqlExecOutcome.noResultSet
        = "Analytical Data (from query " ++ generated_sql ++ "): None" := by
  refine ⟨rfl, ?_, ?_, rfl, ?_, ?_, rfl⟩
  · have h : get_sql_data_context generated_sql (SqlExecOutcome.failure e)
        = "Database data " ++ ("could not be retrieved" ++ (". Error: " ++ e)) := by
      show "Database data could not be retrieved. Error: " ++ e
          = "Database data " ++ ("could not be retrieved" ++ (". Error: " ++ e))
      apply String.ext
      simp [String.data_append]
    rw [h]
    exact strOccurs_append "Database data " "could not be retrieved" (". Error: " ++ e)
  · exact strOccurs_append_right "Database data could not be retrieved. Error: " e
  · have h : get_sql_data_context generated_sql (SqlExecOutcome.resultSet cols rowsRendered)
        = "Analytical Data (from query " ++ (generated_sql ++ ("): " ++ rowsRendered)) := by
      show "Analytical Data (from query " ++ generated_sql ++ "): " ++ rowsRendered
          = "Analytical Data (from query " ++ (generated_sql ++ ("): " ++ rowsRendered))
      apply String.ext
      simp [String.data_append]
    rw [h]
    exact strOccurs_append "Analytical Data (from query " generated_sql ("): " ++ rowsRendered)
  · exact strOccurs_append_right
      ("Analytical Data (from query " ++ generated_sql ++ "): ") rowsRendered

/-- Claim C2 evaluation: `execute_sql_query` applies no execution-level
check to the query text.  A write alone is discarded by the rollback on
`conn.close()` (second conjunct), but a generated query carrying an
explicit `COMMIT` — e.g. `"DELETE FROM products; COMMIT"` — persists its
mutation: the durable store state changes. -/
theorem write_with_commit_persists :
    execute_sql_query_state [SqlStmt.write (fun _ => []), SqlStmt.commitTx] ["shoe"] = []
    ∧ execute_sql_query_state [SqlStmt.write (fun _ => [])] ["shoe"] = ["shoe"]
    ∧ (["shoe"] : List String) ≠ [] := by
  refine ⟨rfl, rfl, by decide⟩

/-! ## Claim theorems for embedding storage (C8) -/

/-- Claim C8 counterexample: the empty vector returned by the embedding
service is shorter than the configured dimension, yet the storage path
skips the row (the `if not isinstance(vec, list) or not vec` guard) and
stores nothing instead of padding it to 768 entries. -/
theorem empty_vector_skipped_not_padded :
    stored_product_embedding (some ([] : List ℚ)) = none
    ∧ stored_chunk_embedding (some ([] : List ℚ)) = none
    ∧ ([] : List ℚ).length < EMBEDDING_DIM := by
  refine ⟨rfl, rfl, by decide⟩

/-- Claim C8 (amended): every non-empty vector stored by the product
backfill or the document-chunk ingestion is dimensionality-enforced —
padded with zeros to exactly 768 entries when shorter, truncated to
exactly 768 when longer — while at query time both retrieval functions
pass the embedding service's raw vector to the vector query unchanged. -/
theorem stored_vectors_enforced_query_vectors_raw (v : List ℚ) (hv : v ≠ []) :
    stored_product_embedding (some v) = some (enforce_embedding_dim v)
    ∧ stored_chunk_embedding (some v) = some (enforce_embedding_dim v)
    ∧ (enforce_embedding_dim v).length = EMBEDDING_DIM
    ∧ (v.length < EMBEDDING_DIM →
        enforce_embedding_dim v = v ++ List.replicate (EMBEDDING_DIM - v.length) 0)
    ∧ (EMBEDDING_DIM < v.length → enforce_embedding_dim v = v.take EMBEDDING_DIM)
    ∧ (∀ (embed : String → List ℚ) (dist : List ℚ → List ℚ → ℚ) (tbl : List ProductRow)
        (q : String) (k : Nat),
        retrieve_similar_products embed dist tbl q k
          = products_vector_query dist (embed q) tbl k)
    ∧ (∀ (embed : String → List ℚ) (dist : List ℚ → List ℚ → ℚ)
        (tbl : List DocumentChunkRow) (q : String) (k : Nat),
        retrieve_similar_shop_info embed dist tbl q k
          = chunks_vector_query dist (embed q) tbl k) := by
  have hne : v.isEmpty = false := by
    cases v with
    | nil => exact absurd rfl hv
    | cons a l => rfl
  refine ⟨?_, ?_, ?_, ?_, ?_, ?_, ?_⟩
  · simp [stored_product_embedding, hne]
  · simp [stored_chunk_embedding, hne]
  · rw [enforce_embedding_dim]
    by_cases h1 : v.length < EMBEDDING_DIM
    · simp [h1]; omega
    · by_cases h2 : v.length > EMBEDDING_DIM
      · simp [h1, h2]; omega
      · simp [h1, h2]; omega
  · intro h1; simp [enforce_embedding_dim, h1]
  · intro h2
    have h1 : ¬ v.length < EMBEDDING_DIM := by omega
    simp [enforce_embedding_dim, h1, h2]
  · intro embed dist tbl q k; rfl
  · intro embed dist tbl q k; rfl

/-- Witness for the amended C8 theorem at the one-entry vector `[1]`:
the stored vector is the zero-padded 768-entry vector. -/
theorem stored_vectors_enforced_witness :
    stored_product_embedding (some ([1] : List ℚ)) = some (enforce_embedding_dim [1])
    ∧ enforce_embedding_dim ([1] : List ℚ)
        = [1] ++ List.replicate (EMBEDDING_DIM - ([1] : List ℚ).length) 0 := by
  have h := stored_vectors_enforced_query_vectors_raw ([1] : List ℚ) (by decide)
  exact ⟨h.1, h.2.2.2.1 (by decide)⟩

/-! ## Claim theorems for the router (C3) -/

/-- Claim C3 counterexample: router output `"123"` is valid JSON
(`json.loads` returns the integer `123`) but is not parseable as a list
of sub-task objects; `route_and_decompose_query` returns that integer
as-is instead of the single fallback sub-task.  The fallback fires only
when `json.loads` raises. -/
theorem valid_json_non_list_not_replaced :
    route_and_decompose_query "show me stats" digitsJsonLoads "123" = JValue.num 123
    ∧ asSubTaskList (JValue.num 123) = none
    ∧ route_and_decompose_query "show me stats" digitsJsonLoads "123"
        ≠ fallback_route_value "show me stats" := by
  refine ⟨rfl, rfl, ?_⟩
  intro h
  exact JValue.noConfusion h

/-- Claim C3 (amended): whenever `json.loads` raises on the fence-stripped
router output, `route_and_decompose_query` does not raise and returns the
single fallback value, which parses as exactly one SubTask with intent
`"semantic_shop"` and `sub_query` equal to the original utterance;
output that decodes as JSON is returned unchanged even when it is not a
list of sub-task objects. -/
theorem decode_failure_yields_fallback (user_query : String)
    (jsonLoads : String → Option JValue) (response_text : String)
    (h : jsonLoads (strip_json_fences response_text) = none) :
    route_and_decompose_query user_query jsonLoads response_text
        = fallback_route_value user_query
    ∧ asSubTaskList (fallback_route_value user_query)
        = some [{ sub_query := user_query, intent := "semantic_shop" }]
    ∧ (∀ v, jsonLoads (strip_json_fences response_text) = some v →
        route_and_decompose_query user_query jsonLoads response_text = v) := by
  refine ⟨?_, ?_, ?_⟩
  · simp [route_and_decompose_query, h, fallback_route_value]
  · rfl
  · intro v hv
    rw [hv] at h
    exact Option.noConfusion h

/-- Witness for the amended C3 theorem: `digitsJsonLoads` agrees with
`json.loads` on `"not a json"` (both raise), and the router returns the
fallback there. -/
theorem decode_failure_yields_fallback_witness :
    route_and_decompose_query "where is the shop" digitsJsonLoads "not a json"
        = fallback_route_value "where is the shop"
    ∧ asSubTaskList (fallback_route_value "where is the shop")
        = some [{ sub_query := "where is the shop", intent := "semantic_shop" }] := by
  have h := decode_failure_yields_fallback "where is the shop" digitsJsonLoads
    "not a json" (by rfl)
  exact ⟨h.1, h.2.1⟩

/-! ## Claim theorems for the orchestrator (C1) -/

/-- Claim C1 counterexample: a SubTask list of length 1 whose task carries
an intent outside the three handled ones produces 0 context blocks — the
dispatch loop of `chat_with_rag_stream` has no else-branch, so the task
is silently dropped from the grounding context. -/
theorem unhandled_intent_drops_block :
    (combined_contexts ⟨fun s => s, fun _ => [], fun _ => []⟩
        [{ sub_query := "q", intent := "other" }]).length = 0
    ∧ ([{ sub_query := "q", intent := "other" }] : List SubTask).length = 1 := by
  refine ⟨rfl, rfl⟩

/-- Claim C1 (amended): for every SubTask list all of whose intents are
among the three handled ones (`"sql"`, `"semantic_product"`,
`"semantic_shop"`), the dispatch loop emits exactly one context block per
SubTask, in list order — the block at position `i` is the dispatch of the
task at position `i` — and the grounding context joins the blocks with
blank-line separation; a SubTask with any other intent contributes no
block. -/
theorem handled_intents_one_block_per_task (env : RagEnv) (tasks : List SubTask)
    (h : ∀ t ∈ tasks, t.intent = "sql" ∨ t.intent = "semantic_product"
          ∨ t.intent = "semantic_shop") :
    (combined_contexts env tasks).length = tasks.length
    ∧ (∀ i t, tasks.get? i = some t →
        (combined_contexts env tasks).get? i = context_for_task env t)
    ∧ full_context env tasks = String.intercalate "\n\n" (combined_contexts env tasks) := by
  have hmain : (combined_contexts env tasks).length = tasks.length
      ∧ (∀ i t, tasks.get? i = some t →
          (combined_contexts env tasks).get? i = context_for_task env t) := by
    induction tasks with
    | nil =>
      refine ⟨rfl, ?_⟩
      intro i t ht
      cases i <;> exact Option.noConfusion ht
    | cons t ts ih =>
      have ht := h t (List.mem_cons_self t ts)
      have hts : ∀ x ∈ ts, x.intent = "sql" ∨ x.intent = "semantic_product"
          ∨ x.intent = "semantic_shop" := fun x hx => h x (List.mem_cons_of_mem t hx)
      obtain ⟨ihlen, ihget⟩ := ih hts
      have hc : ∃ c, context_for_task env t = some c := by
        rcases ht with h1 | h2 | h3
        · exact ⟨env.sql_context t.sub_query, by simp [context_for_task, h1]⟩
        · exact ⟨build_context_for_products (env.product_rows t.sub_query),
            by simp [context_for_task, h2]⟩
        · exact ⟨build_context_for_shop_info (env.shop_rows t.sub_query),
            by simp [context_for_task, h3]⟩
      obtain ⟨c, hcv⟩ := hc
      have hcons : combined_contexts env (t :: ts) = c :: combined_contexts env ts := by
        simp [combined_contexts, List.filterMap_cons, hcv]
      refine ⟨?_, ?_⟩
      · rw [hcons]
        simp only [List.length_cons, ihlen]
      · intro i x hx
        cases i with
        | zero =>
          rw [hcons]
          simp only [List.get?_cons_zero] at hx ⊢
          cases hx
          exact hcv.symm
        | succ j =>
          rw [hcons]
          simp only [List.get?_cons_succ] at hx ⊢
          exact ihget j x hx
  exact ⟨hmain.1, hmain.2, rfl⟩

/-- Witness for the amended C1 theorem: a two-task list with handled
intents produces exactly two blocks, one per task in order. -/
theorem handled_intents_one_block_per_task_witness :
    (combined_contexts ⟨fun s => s, fun _ => [], fun _ => []⟩
        [{ sub_query := "count shoes", intent := "sql" },
         { sub_query := "shipping", intent := "semantic_shop" }]).length
      = ([{ sub_query := "count shoes", intent := "sql" },
          { sub_query := "shipping", intent := "semantic_shop" }] : List SubTask).length := by
  have h := handled_intents_one_block_per_task ⟨fun s => s, fun _ => [], fun _ => []⟩
    [{ sub_query := "count shoes", intent := "sql" },
     { sub_query := "shipping", intent := "semantic_shop" }] (by decide)
  exact h.1

/-! ## Claim theorems for document-fragment rendering (C9) -/


theorem chunk_display_eq_spec (c : RetrievedChunk) :
    chunk_display_text c = spec_fragment_text c := by
  by_cases h1 : c.contextualized_text = "" <;> by_cases h2 : c.chunk_text = "" <;>
    simp [chunk_display_text, spec_fragment_text, h1, h2]

theorem numbered_chunk_lines_get :
    ∀ (cs : List RetrievedChunk) (idx i : Nat) (c : RetrievedChunk), cs.get? i = some c →
      (numbered_chunk_lines idx cs).get? (2 * i)
        = some (Nat.repr (idx + i) ++ ". " ++ chunk_display_text c)
  | [], _, i, c => by intro h; cases i <;> exact Option.noConfusion h
  | d :: rest, idx, 0, c => by
    intro h
    simp only [List.get?_cons_zero] at h
    cases h
    simp [numbered_chunk_lines]
  | d :: rest, idx, j + 1, c => by
    intro h
    simp only [List.get?_cons_succ] at h
    have ih := numbered_chunk_lines_get rest (idx + 1) j c h
    rw [show 2 * (j + 1) = 2 * j + 1 + 1 by omega]
    simp only [numbered_chunk_lines, List.get?_cons_succ]
    rw [ih, show idx + 1 + j = idx + (j + 1) by omega]

/-- Claim C9: for a non-empty fragment list, `build_context_for_shop_info`
joins a header with one numbered entry per fragment; the entry for the
fragment at position `i` (numbered `i + 1`, counting from 1 in input
order) renders the fragment's contextualized text when present and falls
back to its raw chunk text otherwise. -/
theorem shop_info_renders_contextualized_else_chunk (chunks : List RetrievedChunk)
    (i : Nat) (c : RetrievedChunk) (hne : chunks ≠ []) (hc : chunks.get? i = some c) :
    build_context_for_shop_info chunks = String.intercalate "\n" (shop_info_lines chunks)
    ∧ (shop_info_lines chunks).get? 0 = some "Here is the relevant shop information:\n"
    ∧ (shop_info_lines chunks).get? (1 + 2 * i)
        = some (Nat.repr (i + 1) ++ ". " ++ spec_fragment_text c) := by
  refine ⟨?_, rfl, ?_⟩
  · have : chunks.isEmpty = false := by
      cases chunks with
      | nil => exact absurd rfl hne
      | cons a l => rfl
    simp [build_context_for_shop_info, this]
  · rw [show 1 + 2 * i = 2 * i + 1 by omega]
    simp only [shop_info_lines, List.get?_cons_succ]
    rw [numbered_chunk_lines_get chunks 1 i c hc, chunk_display_eq_spec,
      show (1 : Nat) + i = i + 1 by omega]

/-- Witness for the C9 theorem on a two-fragment list: the second entry
(position 1, numbered 2) falls back to the raw chunk text because its
contextualized text is empty. -/
theorem shop_info_renders_witness :
    (shop_info_lines
        [{ id := 1, chunk_index := 0, chunk_text := "raw", contextualized_text := "ctx",
           similarity := 0 },
         { id := 2, chunk_index := 1, chunk_text := "raw2", contextualized_text := "",
           similarity := 0 }]).get? (1 + 2 * 1)
      = some (Nat.repr (1 + 1) ++ ". "
          ++ spec_fragment_text
              { id := 2, chunk_index := 1, chunk_text := "raw2", contextualized_text := "",
                similarity := 0 }) := by
  have h := shop_info_renders_contextualized_else_chunk
    [{ id := 1, chunk_index := 0, chunk_text := "raw", contextualized_text := "ctx",
       similarity := 0 },
     { id := 2, chunk_index := 1, chunk_text := "raw2", contextualized_text := "",
       similarity := 0 }] 1
    { id := 2, chunk_index := 1, chunk_text := "raw2", contextualized_text := "",
      similarity := 0 } (by decide) (by rfl)
  exact h.2.2

/-! ## Generic ranking lemmas for the vector queries (C4) -/

theorem rank_mem {α β : Type} (d : α → ℚ) (f : α → β) (l : List α) (k : Nat) (x : β)
    (hx : x ∈ ((l.mergeSort (fun a b => decide (d a ≤ d b))).take k).map f) :
    ∃ a, a ∈ l ∧ x = f a := by
  rcases List.mem_map.1 hx with ⟨a, ha, rfl⟩
  exact ⟨a, List.mem_mergeSort.1 (List.mem_of_mem_take ha), rfl⟩

theorem rank_sorted {α : Type} (d : α → ℚ) (l : List α) (k : Nat) :
    List.Pairwise (fun a b => decide (d a ≤ d b) = true)
      ((l.mergeSort (fun a b => decide (d a ≤ d b))).take k) := by
  have hs : List.Pairwise (fun a b => decide (d a ≤ d b) = true)
      (l.mergeSort (fun a b => decide (d a ≤ d b))) :=
    @List.sorted_mergeSort α (fun a b => decide (d a ≤ d b))
      (fun a b c hab hbc =>
        decide_eq_true (le_trans (of_decide_eq_true hab) (of_decide_eq_true hbc)))
      (fun a b => by
        rcases le_total (d a) (d b) with h | h
        · simp [decide_eq_true h]
        · simp [decide_eq_true h])
      l
  exact List.Pairwise.sublist (List.take_sublist k _) hs

theorem rank_pairwise {α β : Type} (d : α → ℚ) (f : α → β) (sim : β → ℚ)
    (hsim : ∀ a, sim (f a) = 1 - d a) (l : List α) (k : Nat) :
    List.Pairwise (fun x y => sim y ≤ sim x)
      (((l.mergeSort (fun a b => decide (d a ≤ d b))).take k).map f) := by
  rw [List.pairwise_map]
  exact (rank_sorted d l k).imp
    (fun h => by
      rw [hsim, hsim]
      exact sub_le_sub_left (of_decide_eq_true h) 1)

theorem rank_length {α β : Type} (le : α → α → Bool) (f : α → β) (l : List α) (k : Nat) :
    (((l.mergeSort le).take k).map f).length ≤ k := by
  rw [List.length_map, List.length_take]
  exact Nat.min_le_left _ _

theorem rank_perm {α β : Type} (le : α → α → Bool) (f : α → β) (l : List α) (k : Nat)
    (h : l.length ≤ k) :
    List.Perm (((l.mergeSort le).take k).map f) (l.map f) := by
  rw [List.take_of_length_le (by rw [List.length_mergeSort]; exact h)]
  exact (List.mergeSort_perm l le).map f

/-- Claim C4: both retrieval functions return only rows with a non-null
embedding, each carrying `similarity = 1 - distance`; the result is
ordered by descending similarity (equivalently ascending distance); it
has at most `top_k` rows, `top_k` defaulting to 5; and when at most
`top_k` embedded rows exist the result is exactly the available embedded
rows (a permutation of them, possibly empty) — never an error, as both
functions are total. -/
theorem vector_retrieval_contract (embed : String → List ℚ) (dist : List ℚ → List ℚ → ℚ)
    (ptbl : List ProductRow) (ctbl : List DocumentChunkRow) (q : String) (k : Nat) :
    (∀ x ∈ retrieve_similar_products embed dist ptbl q k,
        ∃ r, r ∈ ptbl ∧ r.embedding.isSome ∧ x = retrieved_product_of dist (embed q) r)
    ∧ List.Pairwise (fun a b => b.similarity ≤ a.similarity)
        (retrieve_similar_products embed dist ptbl q k)
    ∧ (retrieve_similar_products embed dist ptbl q k).length ≤ k
    ∧ ((embedded_products ptbl).length ≤ k →
        List.Perm (retrieve_similar_products embed dist ptbl q k)
          ((embedded_products ptbl).map (retrieved_product_of dist (embed q))))
    ∧ retrieve_similar_products embed dist ptbl q = retrieve_similar_products embed dist ptbl q 5
    ∧ (∀ x ∈ retrieve_similar_shop_info embed dist ctbl q k,
        ∃ r, r ∈ ctbl ∧ r.embedding.isSome ∧ x = retrieved_chunk_of dist (embed q) r)
    ∧ List.Pairwise (fun a b => b.similarity ≤ a.similarity)
        (retrieve_similar_shop_info embed dist ctbl q k)
    ∧ (retrieve_similar_shop_info embed dist ctbl q k).length ≤ k
    ∧ ((embedded_chunks ctbl).length ≤ k →
        List.Perm (retrieve_similar_shop_info embed dist ctbl q k)
          ((embedded_chunks ctbl).map (retrieved_chunk_of dist (embed q))))
    ∧ retrieve_similar_shop_info embed dist ctbl q
        = retrieve_similar_shop_info embed dist ctbl q 5 := by
  refine ⟨?_, ?_, ?_, ?_, rfl, ?_, ?_, ?_, ?_, rfl⟩
  · intro x hx
    rcases rank_mem (fun r : ProductRow => dist (r.embedding.getD []) (embed q))
      (retrieved_product_of dist (embed q)) (embedded_products ptbl) k x hx with ⟨a, ha, rfl⟩
    rcases List.mem_filter.1 ha with ⟨hmem, hsome⟩
    exact ⟨a, hmem, hsome, rfl⟩
  · exact rank_pairwise (fun r : ProductRow => dist (r.embedding.getD []) (embed q))
      (retrieved_product_of dist (embed q)) (fun b => b.similarity) (fun a => rfl)
      (embedded_products ptbl) k
  · exact rank_length _ (retrieved_product_of dist (embed q)) (embedded_products ptbl) k
  · intro h
    exact rank_perm _ (retrieved_product_of dist (embed q)) (embedded_products ptbl) k h
  · intro x hx
    rcases rank_mem (fun r : DocumentChunkRow => dist (r.embedding.getD []) (embed q))
      (retrieved_chunk_of dist (embed q)) (embedded_chunks ctbl) k x hx with ⟨a, ha, rfl⟩
    rcases List.mem_filter.1 ha with ⟨hmem, hsome⟩
    exact ⟨a, hmem, hsome, rfl⟩
  · exact rank_pairwise (fun r : DocumentChunkRow => dist (r.embedding.getD []) (embed q))
      (retrieved_chunk_of dist (embed q)) (fun b => b.similarity) (fun a => rfl)
      (embedded_chunks ctbl) k
  · exact rank_length _ (retrieved_chunk_of dist (embed q)) (embedded_chunks ctbl) k
  · intro h
    exact rank_perm _ (retrieved_chunk_of dist (embed q)) (embedded_chunks ctbl) k h

/-- Witness for the C4 theorem: with one embedded product row and an
empty chunk table, five requested rows yield exactly the available rows. -/
theorem vector_retrieval_contract_witness :
    List.Perm
      (retrieve_similar_products (fun _ => ([] : List ℚ)) (fun _ _ => (0 : ℚ))
        [{ id := 1, name := none, name_mm := none, description := none,
           description_mm := none, category := none, brand := none, price := none,
           stock_quantity := none, embedding := some [] }] "x" 5)
      ((embedded_products
          [{ id := 1, name := none, name_mm := none, description := none,
             description_mm := none, category := none, brand := none, price := none,
             stock_quantity := none, embedding := some [] }]).map
        (retrieved_product_of (fun _ _ => (0 : ℚ)) []))
    ∧ List.Perm
        (retrieve_similar_shop_info (fun _ => ([] : List ℚ)) (fun _ _ => (0 : ℚ))
          ([] : List DocumentChunkRow) "x" 5)
        ((embedded_chunks ([] : List DocumentChunkRow)).map
          (retrieved_chunk_of (fun _ _ => (0 : ℚ)) [])) := by
  have h := vector_retrieval_contract (fun _ => ([] : List ℚ)) (fun _ _ => (0 : ℚ))
    [{ id := 1, name := none, name_mm := none, description := none,
       description_mm := none, category := none, brand := none, price := none,
       stock_quantity := none, embedding := some [] }] ([] : List DocumentChunkRow) "x" 5
  exact ⟨h.2.2.2.1 (by decide), h.2.2.2.2.2.2.2.2.1 (by decide)⟩
